import Mathlib

/-!
Verification of the configuration-driven Slang test generator
(`extras/slang-test-gen/slang-test-gen.py`).

The Python source is shallowly embedded below: dataclasses become
structures, Python dicts (insertion ordered) become association lists,
`str.replace` becomes the fuel-structural `replaceFuel`, exceptions become
`Except`, and the filesystem probing of `_load_shader_template` is made
explicit through an `FSModel` record of path predicates.
-/

namespace SlangTestGen

/-- Membership of a contiguous subsequence, the embedding of Python's
`in` operator on strings (`"//TEST_INPUT:" in shader_code`). -/
def occursIn (pat : List Char) : List Char → Bool
  | [] => pat.isEmpty
  | c :: cs => pat.isPrefixOf (c :: cs) || occursIn pat cs

/-- Python `str.replace`, fuel-structural so it reduces in the kernel:
replaces every non-overlapping occurrence of the pattern left to right.
The pattern is passed as head and tail so it is never empty (every
placeholder has at least four characters). -/
def replaceFuel (p : Char) (ps rep : List Char) : Nat → List Char → List Char
  | _, [] => []
  | 0, s => s
  | Nat.succ n, c :: cs =>
    if (p :: ps).isPrefixOf (c :: cs) then
      rep ++ replaceFuel p ps rep n (cs.drop ps.length)
    else
      c :: replaceFuel p ps rep n cs

/-- Embedding of `text.replace(pat, rep)` for a non-empty pattern `p :: ps`. -/
def replaceAll (p : Char) (ps rep s : List Char) : List Char :=
  replaceFuel p ps rep s.length s

/-- The placeholder token for a template key: `"\x7b\x7b" + key + "\x7d\x7d"`. -/
def placeholder (k : List Char) : List Char :=
  '\x7b' :: '\x7b' :: (k ++ ['\x7d', '\x7d'])

/-- Embedding of `TestGenerator._apply_template_vars`: fold the ordered
mapping over the text, replacing each key's placeholder with its
(stringified) value. -/
def applyTemplateVars (text : List Char) (vars : List (List Char × List Char)) : List Char :=
  vars.foldl (fun r kv => replaceAll '\x7b' ('\x7b' :: (kv.1 ++ ['\x7d', '\x7d'])) kv.2 r) text

/-- String-level wrapper for `_apply_template_vars`; values are held
already stringified (the source applies `str(value)`). -/
def applyTemplateVarsS (text : String) (vars : List (String × String)) : String :=
  String.mk (applyTemplateVars text.toList (vars.map (fun kv => (kv.1.toList, kv.2.toList))))

/-- Enumeration `TestType` of the source. -/
inductive TestType where
  | SIMPLE
  | COMPARE_COMPUTE
  | INTERPRET
  | CROSS_COMPILE
  | COMPILE_FAIL
  | CUSTOM
deriving DecidableEq

/-- The member names of the `TestType` enum (`TestType.__members__`). -/
def testTypeMembers : List String :=
  ["SIMPLE", "COMPARE_COMPUTE", "INTERPRET", "CROSS_COMPILE", "COMPILE_FAIL", "CUSTOM"]

/-- Lookup `TestType[s]` guarded by `s in TestType.__members__`. -/
def TestType.ofMember (s : String) : Option TestType :=
  if s = "SIMPLE" then some TestType.SIMPLE
  else if s = "COMPARE_COMPUTE" then some TestType.COMPARE_COMPUTE
  else if s = "INTERPRET" then some TestType.INTERPRET
  else if s = "CROSS_COMPILE" then some TestType.CROSS_COMPILE
  else if s = "COMPILE_FAIL" then some TestType.COMPILE_FAIL
  else if s = "CUSTOM" then some TestType.CUSTOM
  else none

/-- Dataclass `TestInput`. -/
structure TestInput where
  name : String
  input_type : String
  parameters : String
  declaration : Option String
deriving DecidableEq

/-- A disable reason is either an integer issue number or free text
(the YAML value can be either). -/
abbrev DisableReason := Sum Int String

/-- Dataclass `TestDirective`. -/
structure TestDirective where
  test_type : TestType
  flags : String
  filecheck : Option String
  enabled : Bool
  disable_reason : Option DisableReason
deriving DecidableEq

/-- Dataclass `TestVariant`. Template variables are an insertion-ordered
association list, as Python dicts are. -/
structure TestVariant where
  name : String
  description : String
  directives : List TestDirective
  inputs : List TestInput
  template_vars : List (String × String)
  shader_code : Option String
  additional_header : Option String
  filecheck_patterns : List (String × List String)
deriving DecidableEq

/-- Dataclass `TestConfig` (the fields the renderer reads). -/
structure TestConfig where
  name : String
  description : String
  shader_template : String
  output_pattern : String
  variants : List TestVariant
  global_inputs : List TestInput
  global_template_vars : List (String × String)
  generation_comment : Option String
  default_filecheck_patterns : List (String × List String)
  default_directives : List TestDirective
  output_dir : Option String
deriving DecidableEq

/-- Truthiness of an optional string in Python: `None` and `""` are falsy. -/
def strTruthy : Option String → Bool
  | none => false
  | some s => s ≠ ""

/-- Embedding of Python dict merge `\x7b**g, **v\x7d`: keys of `g` keep their
position (values overridden by `v` on collision), then keys only in `v`
follow in `v`'s order. -/
def dictMerge {β : Type} (g v : List (String × β)) : List (String × β) :=
  g.map (fun kv =>
    match v.lookup kv.1 with
    | some b => (kv.1, b)
    | none => kv) ++
  v.filter (fun kv => (g.lookup kv.1).isNone)

/-- Embedding of `TestDirective.to_test_line`. Python's `if self.filecheck`
is a truthiness test, embedded via `strTruthy`. -/
def TestDirective.to_test_line (d : TestDirective) : String :=
  let pfx := if d.enabled then "" else "DISABLE_"
  match d.test_type with
  | TestType.SIMPLE =>
    let fc := if strTruthy d.filecheck then "(filecheck=" ++ d.filecheck.getD "" ++ ")" else ""
    "//" ++ pfx ++ "TEST:SIMPLE" ++ fc ++ ": " ++ d.flags
  | TestType.COMPARE_COMPUTE =>
    let fc :=
      if strTruthy d.filecheck then "(filecheck-buffer=" ++ d.filecheck.getD "" ++ ")" else ""
    "//" ++ pfx ++ "TEST(compute):COMPARE_COMPUTE" ++ fc ++ ": " ++ d.flags
  | TestType.INTERPRET =>
    let fc := if strTruthy d.filecheck then "(filecheck=" ++ d.filecheck.getD "" ++ ")" else ""
    "//" ++ pfx ++ "TEST:INTERPRET" ++ fc ++ ": " ++ d.flags
  | TestType.COMPILE_FAIL => "//" ++ pfx ++ "TEST:COMPILE_FAIL: " ++ d.flags
  | TestType.CROSS_COMPILE => "//" ++ pfx ++ "TEST:CROSS_COMPILE: " ++ d.flags
  | TestType.CUSTOM => "//" ++ pfx ++ d.flags

/-- Truthiness of a disable reason: `None`, `0` and `""` are falsy. -/
def reasonTruthy : Option DisableReason → Bool
  | none => false
  | some (Sum.inl i) => i ≠ 0
  | some (Sum.inr s) => s ≠ ""

/-- The comment emitted after a disabled directive: an issue link when the
reason is an integer or a digit string (`isinstance(reason, int) or
str(reason).isdigit()`), free text otherwise. -/
def disableReasonLine : DisableReason → String
  | Sum.inl i =>
    "// Test disabled, see https://github.com/shader-slang/slang/issues/" ++ toString i
  | Sum.inr s =>
    if s ≠ "" ∧ s.toList.all Char.isDigit then
      "// Test disabled, see https://github.com/shader-slang/slang/issues/" ++ s
    else
      "// Test disabled: " ++ s

/-- Lines contributed by one directive inside `_generate_header`:
the `//TEST` line, then the disable-reason comment when the directive is
disabled and has a truthy reason. -/
def directiveEntryLines (d : TestDirective) : List String :=
  d.to_test_line ::
    (if d.enabled then []
     else match d.disable_reason with
       | none => []
       | some r => if reasonTruthy (some r) then [disableReasonLine r] else [])

/-- Directive-list selection of `_generate_header` line 258:
`variant.directives if variant.directives else self.config.default_directives`. -/
def effectiveDirectives (cfg : TestConfig) (v : TestVariant) : List TestDirective :=
  match v.directives with
  | [] => cfg.default_directives
  | d :: ds => d :: ds

/-- The rendered directive block of the header. -/
def directiveSection (cfg : TestConfig) (v : TestVariant) : List String :=
  (effectiveDirectives cfg v).flatMap directiveEntryLines

/-- Input-list concatenation of `_generate_header` line 276:
`self.config.global_inputs + variant.inputs`. -/
def effectiveInputs (cfg : TestConfig) (v : TestVariant) : List TestInput :=
  cfg.global_inputs ++ v.inputs

/-- Embedding of `TestGenerator._shader_has_test_inputs`. -/
def shader_has_test_inputs (s : String) : Bool :=
  occursIn "//TEST_INPUT:".toList s.toList

/-- Lines contributed by one test input: the `//TEST_INPUT:` metadata line,
then the declaration verbatim when truthy. -/
def inputEntryLines (i : TestInput) : List String :=
  ("//TEST_INPUT: " ++ i.input_type ++ "(" ++ i.parameters ++ "):name " ++ i.name) ::
    (if strTruthy i.declaration then [i.declaration.getD ""] else [])

/-- The input block of the header (`_generate_header` lines 274-286): the
suppression scan runs on `self.shader_template` — the resolved document
template — never on the variant's own `shader_code`. -/
def inputSection (cfg : TestConfig) (tpl : String) (v : TestVariant) : List String :=
  if shader_has_test_inputs tpl then []
  else
    let all_inputs := effectiveInputs cfg v
    all_inputs.flatMap inputEntryLines ++ (if all_inputs.isEmpty then [] else [""])

/-- The generation banner (`_generate_header` lines 245-248), guarded by
truthiness of `generation_comment`. -/
def bannerLines (cfg : TestConfig) : List String :=
  if strTruthy cfg.generation_comment then
    ["// THIS IS A GENERATED FILE. DO NOT EDIT!",
     "// " ++ cfg.generation_comment.getD "",
     "//"]
  else []

/-- The description block (`_generate_header` lines 251-254). -/
def descriptionLines (cfg : TestConfig) (v : TestVariant) : List String :=
  ("// Test: " ++ cfg.name ++ " - " ++ v.name) ::
    (if v.description ≠ "" then ["// " ++ v.description] else []) ++ ["//"]

/-- The additional-header block (`_generate_header` lines 289-291). -/
def additionalSection (v : TestVariant) : List String :=
  if strTruthy v.additional_header then [v.additional_header.getD "", ""] else []

/-- Embedding of `TestGenerator._generate_header` as its list of lines,
in the exact append order of the source. -/
def generateHeaderLines (cfg : TestConfig) (tpl : String) (v : TestVariant) : List String :=
  bannerLines cfg ++ descriptionLines cfg v ++ directiveSection cfg v ++ [""] ++
    inputSection cfg tpl v ++ additionalSection v

/-- Embedding of `TestGenerator._generate_filecheck_patterns`. -/
def generateFilecheckPatterns (cfg : TestConfig) (v : TestVariant) : String :=
  let merged := dictMerge cfg.default_filecheck_patterns v.filecheck_patterns
  if merged.isEmpty then ""
  else
    String.intercalate "\n"
      (merged.flatMap (fun g =>
        g.2.map (fun pat =>
          if pat.contains ':' then "// " ++ pat else "// " ++ g.1 ++ ": " ++ pat) ++ [""]))

/-- Shader-body selection of `generate_test_file` line 326:
`variant.shader_code if variant.shader_code else self.shader_template`
(a present-but-empty string is falsy and keeps the template). -/
def selectShaderBody (v : TestVariant) (tpl : String) : String :=
  match v.shader_code with
  | none => tpl
  | some s => if s = "" then tpl else s

/-- Merged template variables of `generate_test_file` line 320. -/
def mergedTemplateVars (cfg : TestConfig) (v : TestVariant) : List (String × String) :=
  dictMerge cfg.global_template_vars v.template_vars

/-- The raw content of `generate_test_file` before the final
trailing-whitespace normalization (lines 317-339). -/
def rawTestContent (cfg : TestConfig) (tpl : String) (v : TestVariant) : String :=
  let header := String.intercalate "\n" (generateHeaderLines cfg tpl v)
  let shader := applyTemplateVarsS (selectShaderBody v tpl) (mergedTemplateVars cfg v)
  let fc := generateFilecheckPatterns cfg v
  let content := header ++ shader
  if fc ≠ "" then content ++ "\n\n" ++ fc else content

/-- Python `content.split(chr 10)`. -/
def splitNl : List Char → List (List Char)
  | [] => [[]]
  | c :: cs =>
    if c = '\n' then [] :: splitNl cs
    else match splitNl cs with
      | [] => [[c]]
      | l :: ls => (c :: l) :: ls

/-- Python `line.rstrip()` over the ASCII whitespace characters. -/
def rstrip (l : List Char) : List Char :=
  (l.reverse.dropWhile (fun c =>
    c = ' ' ∨ c = '\t' ∨ c = '\n' ∨ c = '\r' ∨ c = '\x0b' ∨ c = '\x0c')).reverse

/-- The lines of the final test file, after the per-line `rstrip`
normalization of `generate_test_file` lines 342-344. -/
def contentLines (cfg : TestConfig) (tpl : String) (v : TestVariant) : List (List Char) :=
  (splitNl (rawTestContent cfg tpl v).toList).map rstrip

/-- Embedding of `TestGenerator.generate_test_file`'s written text. -/
def generateTestContent (cfg : TestConfig) (tpl : String) (v : TestVariant) : String :=
  String.mk (List.intercalate ['\n'] (contentLines cfg tpl v))

/-- Abstract filesystem for `_load_shader_template`: path predicates and a
total read function (reads in the source only happen on paths already
known to exist, except for the caller override, which the source opens
unconditionally). `joinPath d p` stands for `pathlib`'s `d / p`. -/
structure FSModel where
  isAbsolute : String → Bool
  pathExists : String → Bool
  readFile : String → String
  joinPath : String → String → String

/-- Embedding of `TestGenerator._load_shader_template`, with the source's
nested conditionals kept in order: caller override, absolute-and-exists,
relative to the config directory, relative to the working directory,
inline text. -/
def load_shader_template (fs : FSModel) (configDir tpl : String)
    (shader_file : Option String) : String :=
  match shader_file with
  | some p => fs.readFile p
  | none =>
    if fs.isAbsolute tpl && fs.pathExists tpl then fs.readFile tpl
    else if fs.pathExists (fs.joinPath configDir tpl) then
      fs.readFile (fs.joinPath configDir tpl)
    else if fs.pathExists tpl then fs.readFile tpl
    else tpl

/-- Candidate list following the words of the specification: the ordered
resolution attempts (a)-(d); `none` entries are rejected candidates. -/
def resolutionCandidates (fs : FSModel) (configDir tpl : String)
    (shader_file : Option String) : List (Option String) :=
  [shader_file,
   if fs.isAbsolute tpl && fs.pathExists tpl then some tpl else none,
   if fs.pathExists (fs.joinPath configDir tpl) then some (fs.joinPath configDir tpl) else none,
   if fs.pathExists tpl then some tpl else none]

/-- Resolution as stated by the specification: read the first successful
candidate, else fall back (e) to the literal inline text. -/
def resolveShaderTemplateSpec (fs : FSModel) (configDir tpl : String)
    (shader_file : Option String) : String :=
  match (resolutionCandidates fs configDir tpl shader_file).findSome? id with
  | some p => fs.readFile p
  | none => tpl

/-- Raw YAML mapping for one directive: each key either present or absent. -/
structure DirectiveDict where
  type : Option String
  flags : Option String
  filecheck : Option String
  enabled : Option Bool
  disable_reason : Option DisableReason
deriving DecidableEq

/-- Embedding of `TestDirective.from_dict`: total, no failure path; an
unrecognized kind string falls back to `CUSTOM`. -/
def TestDirective.from_dict (d : DirectiveDict) : TestDirective :=
  let test_type_str := d.type.getD "SIMPLE"
  let test_type :=
    match TestType.ofMember test_type_str with
    | some t => t
    | none => TestType.CUSTOM
  ⟨test_type, d.flags.getD "", d.filecheck, d.enabled.getD true, d.disable_reason⟩

/-- Raw YAML mapping for one input: each key either present or absent. -/
structure InputDict where
  name : Option String
  type : Option String
  parameters : Option String
  declaration : Option String
deriving DecidableEq

/-- Embedding of `TestInput.from_dict`: `data[...]` on a missing key raises
`KeyError` (here `Except.error`); `data.get` supplies the defaults. The
source evaluates `name` before `type`. -/
def TestInput.from_dict (d : InputDict) : Except String TestInput :=
  match d.name with
  | none => Except.error "KeyError: name"
  | some n =>
    match d.type with
    | none => Except.error "KeyError: type"
    | some t => Except.ok ⟨n, t, d.parameters.getD "", d.declaration⟩

/-- List comprehension `[TestInput.from_dict(i) for i in ...]`: the first
raised error aborts the whole comprehension. -/
def loadInputList : List InputDict → Except String (List TestInput)
  | [] => Except.ok []
  | d :: ds =>
    match TestInput.from_dict d with
    | Except.error e => Except.error e
    | Except.ok i =>
      match loadInputList ds with
      | Except.error e => Except.error e
      | Except.ok is => Except.ok (i :: is)

/-- The variant input lists parsed by `TestConfig.from_yaml` (one list per
variant, in declaration order); an error in any variant aborts loading. -/
def loadVariantInputLists : List (List InputDict) → Except String (List (List TestInput))
  | [] => Except.ok []
  | l :: ls =>
    match loadInputList l with
    | Except.error e => Except.error e
    | Except.ok is =>
      match loadVariantInputLists ls with
      | Except.error e => Except.error e
      | Except.ok iss => Except.ok (is :: iss)

/-- The input-parsing part of `TestConfig.from_yaml` (lines 167-174): the
variants' inputs are parsed first, then `global_inputs`; any failure
propagates out of the loader. -/
def loadConfigInputs (variantInputs : List (List InputDict)) (globals : List InputDict) :
    Except String (List (List TestInput) × List TestInput) :=
  match loadVariantInputLists variantInputs with
  | Except.error e => Except.error e
  | Except.ok vs =>
    match loadInputList globals with
    | Except.error e => Except.error e
    | Except.ok gs => Except.ok (vs, gs)

/-- Embedding of the `generate_all_tests` loop. The per-variant effect
(render the variant and write its file) is abstracted as `gen`; the first
component collects the files written so far in order, and a failure stops
the loop at once (`raise` after reporting), recording the failing variant
and its error. -/
def generateAllTests {V F E : Type} (gen : V → Except E F) :
    List V → List F × Option (V × E)
  | [] => ([], none)
  | v :: vs =>
    match gen v with
    | Except.ok f =>
      let r := generateAllTests gen vs
      (f :: r.1, r.2)
    | Except.error e => ([], some (v, e))

/-! ## Helper lemmas -/

/-- A pattern that does not occur in the text leaves `replaceFuel` inert,
whatever the fuel. -/
theorem replaceFuel_of_not_occurs (p : Char) (ps rep : List Char) :
    ∀ (n : Nat) (s : List Char), occursIn (p :: ps) s = false → replaceFuel p ps rep n s = s
  | 0, [] => fun _ => rfl
  | 0, _ :: _ => fun _ => rfl
  | Nat.succ _, [] => fun _ => rfl
  | Nat.succ n, c :: cs => by
    intro h
    simp only [occursIn, Bool.or_eq_false_iff] at h
    simp only [replaceFuel, h.1, Bool.false_eq_true, if_false]
    exact congrArg (c :: ·) (replaceFuel_of_not_occurs p ps rep n cs h.2)

/-- A pattern that does not occur in the text leaves `replaceAll` inert. -/
theorem replaceAll_of_not_occurs (p : Char) (ps rep s : List Char)
    (h : occursIn (p :: ps) s = false) : replaceAll p ps rep s = s :=
  replaceFuel_of_not_occurs p ps rep s.length s h

/-- A substitution pass is inert on a text containing none of the keys'
placeholders. -/
theorem applyTemplateVars_of_not_occurs (s : List Char)
    (vars : List (List Char × List Char))
    (h : ∀ kv ∈ vars, occursIn (placeholder kv.1) s = false) :
    applyTemplateVars s vars = s := by
  induction vars with
  | nil => rfl
  | cons kv rest ih =>
    have hkv : occursIn (placeholder kv.1) s = false := h kv (List.mem_cons_self kv rest)
    have hstep : replaceAll '\x7b' ('\x7b' :: (kv.1 ++ ['\x7d', '\x7d'])) kv.2 s = s :=
      replaceAll_of_not_occurs _ _ _ _ hkv
    calc applyTemplateVars s (kv :: rest)
        = applyTemplateVars (replaceAll '\x7b' ('\x7b' :: (kv.1 ++ ['\x7d', '\x7d'])) kv.2 s)
            rest := rfl
      _ = applyTemplateVars s rest := by rw [hstep]
      _ = s := ih (fun kw hw => h kw (List.mem_cons_of_mem kv hw))

end SlangTestGen

namespace SlangTestGen

/-- Mapping of the C4 counterexample: values contain no complete
placeholder of any key, yet the second value holds bare closing-brace
characters. -/
def varsC4 : List (List Char × List Char) :=
  [("a".toList, "A".toList), ("b".toList, ['\x7d', '\x7d'])]

/-- Input text of the C4 counterexample: the two-character value of key
`b` splices with the surrounding text to form the placeholder of key `a`
only after the first pass. -/
def textC4 : List Char :=
  ['\x7b', '\x7b', 'a', '\x7b', '\x7b', 'b', '\x7d', '\x7d']

/-- C4 counterexample: a mapping in which no key's placeholder occurs in
another key's value (indeed in any key's value), yet substituting twice
differs from substituting once — the first pass manufactures the
placeholder of `a` out of `b`'s replacement, and the second pass then
rewrites it. -/
theorem applyTemplateVars_not_idempotent_counterexample :
    (∀ kv ∈ varsC4, ∀ kw ∈ varsC4, occursIn (placeholder kv.1) kw.2 = false) ∧
      applyTemplateVars (applyTemplateVars textC4 varsC4) varsC4 ≠
        applyTemplateVars textC4 varsC4 := by
  decide

/-- C4 (amended): the template-variable substitution pass is idempotent
whenever no key's placeholder occurs in the text produced by the first
pass — in particular whenever one pass eliminates every placeholder
without manufacturing new ones. -/
theorem applyTemplateVars_idempotent (text : List Char)
    (vars : List (List Char × List Char))
    (h : ∀ kv ∈ vars, occursIn (placeholder kv.1) (applyTemplateVars text vars) = false) :
    applyTemplateVars (applyTemplateVars text vars) vars = applyTemplateVars text vars :=
  applyTemplateVars_of_not_occurs (applyTemplateVars text vars) vars h

/-- Witness for the amended C4 theorem at a concrete substitution. -/
theorem applyTemplateVars_idempotent_witness :
    applyTemplateVars
        (applyTemplateVars ['\x7b', '\x7b', 'a', '\x7d', '\x7d'] [("a".toList, "A".toList)])
        [("a".toList, "A".toList)] =
      applyTemplateVars ['\x7b', '\x7b', 'a', '\x7d', '\x7d'] [("a".toList, "A".toList)] :=
  applyTemplateVars_idempotent ['\x7b', '\x7b', 'a', '\x7d', '\x7d']
    [("a".toList, "A".toList)] (by decide)

/-- C2: directive-list selection is all-or-nothing — a variant with a
non-empty directive list is rendered from exactly its own directives,
with no defaults blended in, and a variant with an empty list is rendered
from exactly the document's default directives. -/
theorem effectiveDirectives_all_or_nothing (cfg : TestConfig) (v : TestVariant) :
    (v.directives ≠ [] →
        effectiveDirectives cfg v = v.directives ∧
        directiveSection cfg v = v.directives.flatMap directiveEntryLines) ∧
    (v.directives = [] →
        effectiveDirectives cfg v = cfg.default_directives ∧
        directiveSection cfg v = cfg.default_directives.flatMap directiveEntryLines) := by
  constructor
  · intro hne
    cases hd : v.directives with
    | nil => exact absurd hd hne
    | cons d ds =>
      exact ⟨by simp [effectiveDirectives, hd], by simp [directiveSection, effectiveDirectives, hd]⟩
  · intro he
    exact ⟨by simp [effectiveDirectives, he], by simp [directiveSection, effectiveDirectives, he]⟩

/-- Directive fixture used by the C2 witness. -/
def dirW : TestDirective := ⟨TestType.SIMPLE, "-x", none, true, none⟩

/-- Default directive fixture used by the C2 witness. -/
def dirWd : TestDirective := ⟨TestType.COMPILE_FAIL, "-y", none, true, none⟩

/-- Config fixture with one default directive, used by the C2 witness. -/
def cfgW2 : TestConfig := ⟨"n", "", "T", "p", [], [], [], none, [], [dirWd], none⟩

/-- Variant fixture with its own directive, used by the C2 witness. -/
def vW2 : TestVariant := ⟨"v", "", [dirW], [], [], none, none, []⟩

/-- Variant fixture with no directives, used by the C2 witness. -/
def vW2e : TestVariant := ⟨"v2", "", [], [], [], none, none, []⟩

/-- Witness for C2 at concrete variants, one with and one without its own
directives. -/
theorem effectiveDirectives_all_or_nothing_witness :
    effectiveDirectives cfgW2 vW2 = vW2.directives ∧
    effectiveDirectives cfgW2 vW2e = cfgW2.default_directives :=
  ⟨((effectiveDirectives_all_or_nothing cfgW2 vW2).1 (by decide)).1,
   ((effectiveDirectives_all_or_nothing cfgW2 vW2e).2 rfl).1⟩

/-- C3: the effective input list is the concatenation of the document's
global inputs with the variant's inputs — its length is the sum of the
two lengths, all global inputs come first at their original indices, and
the variant's inputs follow at their original relative indices. -/
theorem effectiveInputs_concat (cfg : TestConfig) (v : TestVariant) :
    effectiveInputs cfg v = cfg.global_inputs ++ v.inputs ∧
    (effectiveInputs cfg v).length = cfg.global_inputs.length + v.inputs.length ∧
    (∀ i, i < cfg.global_inputs.length →
        (effectiveInputs cfg v)[i]? = cfg.global_inputs[i]?) ∧
    (∀ j, j < v.inputs.length →
        (effectiveInputs cfg v)[cfg.global_inputs.length + j]? = v.inputs[j]?) := by
  refine ⟨rfl, by simp [effectiveInputs], ?_, ?_⟩
  · intro i hi
    unfold effectiveInputs
    rw [List.getElem?_append]
    simp [hi]
  · intro j hj
    unfold effectiveInputs
    rw [List.getElem?_append_right (Nat.le_add_right _ _)]
    simp

/-- Global-input fixture used by the C3 witness. -/
def inpG : TestInput := ⟨"g", "ubuffer", "data=[0], stride=4", none⟩

/-- Variant-input fixture used by the C3 witness. -/
def inpV : TestInput := ⟨"w", "Texture2D", "size=4, content=zero", none⟩

/-- Config fixture with one global input, used by the C3 witness. -/
def cfgW3 : TestConfig := ⟨"n", "", "T", "p", [], [inpG], [], none, [], [], none⟩

/-- Variant fixture with one input, used by the C3 witness. -/
def vW3 : TestVariant := ⟨"v", "", [], [inpV], [], none, none, []⟩

/-- Witness for C3 at a concrete document and variant. -/
theorem effectiveInputs_concat_witness :
    (effectiveInputs cfgW3 vW3)[0]? = cfgW3.global_inputs[0]? ∧
    (effectiveInputs cfgW3 vW3)[cfgW3.global_inputs.length + 0]? = vW3.inputs[0]? :=
  ⟨(effectiveInputs_concat cfgW3 vW3).2.2.1 0 (by decide),
   (effectiveInputs_concat cfgW3 vW3).2.2.2 0 (by decide)⟩

/-- Config fixture for C1: one global input, marker-free document template. -/
def cfgC1 : TestConfig :=
  ⟨"t", "", "void computeMain()", "p.slang", [],
   [⟨"buf", "ubuffer", "data=[0], stride=4", none⟩], [], none, [], [], none⟩

/-- Resolved document template for C1: contains no input marker. -/
def tplC1 : String := "void computeMain()"

/-- Variant fixture for C1: its `shader_code` is set and already contains
the input-marker token. -/
def vC1 : TestVariant :=
  ⟨"v", "", [⟨TestType.SIMPLE, "-f", none, true, none⟩], [], [],
   some "//TEST_INPUT: ubuffer(data=[1]):name x\ncode", none, []⟩

/-- C1 counterexample: a variant whose `shader_code` is set and contains
the input-marker token, with non-empty `global_inputs`, for which the
rendered file nevertheless contains an input metadata line — the
suppression scan looked only at the resolved document template, so the
claim's guarantee of no input metadata fails (and the file ends up with
duplicate input metadata). -/
theorem input_metadata_emitted_despite_variant_marker :
    vC1.shader_code.isSome = true ∧
    shader_has_test_inputs (vC1.shader_code.getD "") = true ∧
    cfgC1.global_inputs ≠ [] ∧
    (contentLines cfgC1 tplC1 vC1).contains
      "//TEST_INPUT: ubuffer(data=[0], stride=4):name buf".toList = true := by
  decide

/-- C1 (amended): the suppression scan runs on the resolved document
template only, never on the variant's `shader_code`; whenever that
template contains the input-marker token, the header's input block is
empty for every variant, even with non-empty `global_inputs`. -/
theorem inputSection_scans_resolved_template (cfg : TestConfig) (tpl : String)
    (v : TestVariant) (h : shader_has_test_inputs tpl = true) :
    inputSection cfg tpl v = [] ∧
    generateHeaderLines cfg tpl v =
      bannerLines cfg ++ descriptionLines cfg v ++ directiveSection cfg v ++ [""] ++
        additionalSection v := by
  have hi : inputSection cfg tpl v = [] := by simp [inputSection, h]
  exact ⟨hi, by simp [generateHeaderLines, hi]⟩

/-- Resolved template that does contain the input marker, for the C1
witness. -/
def tplMarked : String := "//TEST_INPUT: ubuffer(data=[9]):name q\nvoid computeMain()"

/-- Witness for the amended C1 theorem: with a marker-bearing resolved
template and non-empty global inputs, no input block is emitted. -/
theorem inputSection_scans_resolved_template_witness :
    inputSection cfgC1 tplMarked vC1 = [] ∧
    generateHeaderLines cfgC1 tplMarked vC1 =
      bannerLines cfgC1 ++ descriptionLines cfgC1 vC1 ++ directiveSection cfgC1 vC1 ++ [""] ++
        additionalSection vC1 :=
  inputSection_scans_resolved_template cfgC1 tplMarked vC1 (by decide)

/-- Config fixture for C7: no banner, no inputs, no filecheck patterns. -/
def cfgC7 : TestConfig := ⟨"t", "", "body", "p.slang", [], [], [], none, [], [], none⟩

/-- Variant fixture for C7: one enabled SIMPLE directive and nothing else,
so the shader body is the next thing emitted after the header. -/
def vC7 : TestVariant :=
  ⟨"v", "", [⟨TestType.SIMPLE, "-f", none, true, none⟩], [], [], none, none, []⟩

/-- C7: evaluation of the renderer at the failing input. The directive
block's trailing empty entry only supplies the newline that ends the last
header line — when the shader body directly follows the header, the
rendered file contains no blank line at all, although a directive block
was emitted (the source comments the append with "Blank line after
directives"). -/
theorem directive_blank_line_missing_eval :
    contentLines cfgC7 "body" vC7 =
      ["// Test: t - v".toList, "//".toList, "//TEST:SIMPLE: -f".toList, "body".toList] ∧
    (contentLines cfgC7 "body" vC7).contains "".toList = false := by
  decide

/-- C5: shader-template resolution equals the first-match-wins scan over
the specification's ordered candidate list — caller override, then
absolute-and-existing, then relative to the config directory, then
relative to the working directory, then inline text; in particular, when
no override is given and the absolute probe fails, an existing file next
to the config document is read even if the same relative path also exists
in the working directory. -/
theorem load_shader_template_resolution_order (fs : FSModel) (configDir tpl : String)
    (shader_file : Option String) :
    load_shader_template fs configDir tpl shader_file =
        resolveShaderTemplateSpec fs configDir tpl shader_file ∧
    (shader_file = none → (fs.isAbsolute tpl && fs.pathExists tpl) = false →
        fs.pathExists (fs.joinPath configDir tpl) = true →
        load_shader_template fs configDir tpl shader_file =
          fs.readFile (fs.joinPath configDir tpl)) := by
  constructor
  · cases shader_file with
    | some p => rfl
    | none =>
      by_cases h1 : (fs.isAbsolute tpl && fs.pathExists tpl) = true
      · simp [load_shader_template, resolveShaderTemplateSpec, resolutionCandidates, h1]
      · by_cases h2 : fs.pathExists (fs.joinPath configDir tpl) = true
        · simp [load_shader_template, resolveShaderTemplateSpec, resolutionCandidates, h1, h2]
        · by_cases h3 : fs.pathExists tpl = true
          · have ha : fs.isAbsolute tpl = false := by
              cases habs : fs.isAbsolute tpl
              · rfl
              · exact absurd (by simp [habs, h3]) h1
            simp [load_shader_template, resolveShaderTemplateSpec, resolutionCandidates,
              h1, h2, h3, ha]
          · simp [load_shader_template, resolveShaderTemplateSpec, resolutionCandidates,
              h1, h2, h3]
  · intro hsf h1 h2
    subst hsf
    simp [load_shader_template, h1, h2]

/-- Concrete filesystem for the C5 witness: nothing is absolute, exactly
the file next to the config document exists. -/
def fsW : FSModel :=
  ⟨fun _ => false, fun p => p == "cfg/tpl.slang", fun p => "read:" ++ p,
   fun d p => d ++ "/" ++ p⟩

/-- Witness for C5: the template next to the config document wins. -/
theorem load_shader_template_resolution_order_witness :
    load_shader_template fsW "cfg" "tpl.slang" none =
      fsW.readFile (fsW.joinPath "cfg" "tpl.slang") :=
  (load_shader_template_resolution_order fsW "cfg" "tpl.slang" none).2 rfl (by decide)
    (by decide)

/-- C6: the emitter is fail-fast — when every variant before `v` renders
and writes successfully and `v` fails, the batch stops at `v`: the
outcome records exactly the files of the earlier variants (still on
disk), the failing variant with its error, and nothing at all from the
later-declared variants, whatever they are. -/
theorem generateAllTests_fail_fast {V F E : Type} (gen : V → Except E F) (out : V → F)
    (vs₁ : List V) (v : V) (vs₂ : List V) (e : E)
    (hok : ∀ u ∈ vs₁, gen u = Except.ok (out u)) (hfail : gen v = Except.error e) :
    generateAllTests gen (vs₁ ++ v :: vs₂) = (vs₁.map out, some (v, e)) := by
  induction vs₁ with
  | nil => simp [generateAllTests, hfail]
  | cons u us ih =>
    have hu : gen u = Except.ok (out u) := hok u (List.mem_cons_self u us)
    have ihr := ih (fun w hw => hok w (List.mem_cons_of_mem u hw))
    simp [generateAllTests, hu, ihr]

/-- Per-variant effect for the C6 witness: variant 2 fails, the others
write a file named after the variant. -/
def genW : Nat → Except String String :=
  fun n => if n == 2 then Except.error "boom" else Except.ok (toString n)

/-- Witness for C6 at a concrete batch: variants 0 and 1 are written,
variant 2 aborts the batch, variant 3 is never processed. -/
theorem generateAllTests_fail_fast_witness :
    generateAllTests genW ([0, 1] ++ 2 :: [3]) =
      ([0, 1].map (fun n => toString n), some (2, "boom")) :=
  generateAllTests_fail_fast genW (fun n => toString n) [0, 1] 2 [3] "boom"
    (by intro u hu; fin_cases hu <;> rfl) rfl

/-- C8: parsing a directive never fails because of its kind string — any
kind string outside the recognized member set is accepted and the
directive is built with kind `CUSTOM`, all other fields parsed as usual. -/
theorem from_dict_unrecognized_kind_custom (d : DirectiveDict) (s : String)
    (hd : d.type = some s) (hs : s ∉ testTypeMembers) :
    TestDirective.from_dict d =
      ⟨TestType.CUSTOM, d.flags.getD "", d.filecheck, d.enabled.getD true,
       d.disable_reason⟩ := by
  have h6 : ¬s = "SIMPLE" ∧ ¬s = "COMPARE_COMPUTE" ∧ ¬s = "INTERPRET" ∧
      ¬s = "CROSS_COMPILE" ∧ ¬s = "COMPILE_FAIL" ∧ ¬s = "CUSTOM" := by
    simpa [testTypeMembers] using hs
  simp [TestDirective.from_dict, TestType.ofMember, hd, h6.1, h6.2.1, h6.2.2.1,
    h6.2.2.2.1, h6.2.2.2.2.1, h6.2.2.2.2.2]

/-- Raw directive with an unrecognized kind, for the C8 witness. -/
def dirDictW : DirectiveDict := ⟨some "TOTALLY_NEW_KIND", some "-x", none, some false, none⟩

/-- Witness for C8 at a concrete unrecognized kind string. -/
theorem from_dict_unrecognized_kind_custom_witness :
    TestDirective.from_dict dirDictW = ⟨TestType.CUSTOM, "-x", none, false, none⟩ :=
  from_dict_unrecognized_kind_custom dirDictW "TOTALLY_NEW_KIND" rfl (by decide)

/-- Copy of a variant with its `shader_code` removed, used to state C9. -/
def clearShaderCode (v : TestVariant) : TestVariant :=
  ⟨v.name, v.description, v.directives, v.inputs, v.template_vars, none,
   v.additional_header, v.filecheck_patterns⟩

/-- C9: a present-but-empty `shader_code` does not replace the resolved
document template — the selected body is the template, and the rendered
file is identical to that of the same variant with no `shader_code` at
all (the Python truthiness test treats the empty string like `None`). -/
theorem empty_shader_code_keeps_template (cfg : TestConfig) (tpl : String) (v : TestVariant)
    (h : v.shader_code = some "") :
    selectShaderBody v tpl = tpl ∧
    generateTestContent cfg tpl v = generateTestContent cfg tpl (clearShaderCode v) := by
  have hsel : selectShaderBody v tpl = tpl := by simp [selectShaderBody, h]
  refine ⟨hsel, ?_⟩
  unfold generateTestContent contentLines rawTestContent
  rw [hsel]
  rfl

/-- Config fixture for the C9 witness. -/
def cfgW9 : TestConfig := ⟨"n", "", "T", "p", [], [], [], none, [], [], none⟩

/-- Variant fixture with `shader_code` present but empty. -/
def vW9 : TestVariant := ⟨"v", "", [], [], [], some "", none, []⟩

/-- Witness for C9 at a concrete variant with empty `shader_code`. -/
theorem empty_shader_code_keeps_template_witness :
    selectShaderBody vW9 "T" = "T" ∧
    generateTestContent cfgW9 "T" vW9 = generateTestContent cfgW9 "T" (clearShaderCode vW9) :=
  empty_shader_code_keeps_template cfgW9 "T" vW9 rfl

/-- A raw input whose `type` key is missing makes `from_dict` raise. -/
theorem from_dict_missing_type_error (d : InputDict) (h : d.type = none) :
    ∃ e, TestInput.from_dict d = Except.error e := by
  cases hn : d.name with
  | none => exact ⟨"KeyError: name", by simp [TestInput.from_dict, hn]⟩
  | some n => exact ⟨"KeyError: type", by simp [TestInput.from_dict, hn, h]⟩

/-- A faulty member makes the whole input-list comprehension raise. -/
theorem loadInputList_error_of_mem (l : List InputDict) (d : InputDict)
    (hd : d ∈ l) (h : d.type = none) : ∃ e, loadInputList l = Except.error e := by
  induction l with
  | nil => cases hd
  | cons x xs ih =>
    rcases List.mem_cons.mp hd with heq | hmem
    · subst heq
      obtain ⟨e, he⟩ := from_dict_missing_type_error d h
      exact ⟨e, by simp [loadInputList, he]⟩
    · cases hx : TestInput.from_dict x with
      | error e2 => exact ⟨e2, by simp [loadInputList, hx]⟩
      | ok i =>
        obtain ⟨e, he⟩ := ih hmem
        exact ⟨e, by simp [loadInputList, hx, he]⟩

/-- A faulty member of any variant's input list makes variant parsing
raise. -/
theorem loadVariantInputLists_error (ls : List (List InputDict)) (l : List InputDict)
    (d : InputDict) (hl : l ∈ ls) (hd : d ∈ l) (h : d.type = none) :
    ∃ e, loadVariantInputLists ls = Except.error e := by
  induction ls with
  | nil => cases hl
  | cons x xs ih =>
    rcases List.mem_cons.mp hl with heq | hmem
    · subst heq
      obtain ⟨e, he⟩ := loadInputList_error_of_mem l d hd h
      exact ⟨e, by simp [loadVariantInputLists, he]⟩
    · cases hx : loadInputList x with
      | error e2 => exact ⟨e2, by simp [loadVariantInputLists, hx]⟩
      | ok is =>
        obtain ⟨e, he⟩ := ih hmem
        exact ⟨e, by simp [loadVariantInputLists, hx, he]⟩

/-- C10: an input entry that omits the `type` key — whether among the
document's `global_inputs` or in any variant's `inputs` — makes loading
the document raise an error, while `parameters` defaults to the empty
string and `declaration` to absent when only `name` and `type` are
given. -/
theorem missing_input_type_fails_loading :
    (∀ (variantInputs : List (List InputDict)) (globals : List InputDict) (d : InputDict),
        (d ∈ globals ∨ ∃ l ∈ variantInputs, d ∈ l) → d.type = none →
        ∃ e, loadConfigInputs variantInputs globals = Except.error e) ∧
    (∀ (n t : String),
        TestInput.from_dict ⟨some n, some t, none, none⟩ = Except.ok ⟨n, t, "", none⟩) := by
  constructor
  · intro vis globals d hmem htype
    rcases hmem with hg | ⟨l, hl, hd⟩
    · cases hv : loadVariantInputLists vis with
      | error e => exact ⟨e, by simp [loadConfigInputs, hv]⟩
      | ok vs =>
        obtain ⟨e, he⟩ := loadInputList_error_of_mem globals d hg htype
        exact ⟨e, by simp [loadConfigInputs, hv, he]⟩
    · obtain ⟨e, he⟩ := loadVariantInputLists_error vis l d hl hd htype
      exact ⟨e, by simp [loadConfigInputs, he]⟩
  · intro n t
    rfl

/-- Raw input missing its `type` key, for the C10 witness. -/
def inputDictW : InputDict := ⟨some "buf", none, none, none⟩

/-- Witness for C10: a global input without `type` fails loading, and an
input with only `name` and `type` gets the documented defaults. -/
theorem missing_input_type_fails_loading_witness :
    (∃ e, loadConfigInputs [] [inputDictW] = Except.error e) ∧
    TestInput.from_dict ⟨some "buf", some "ubuffer", none, none⟩ =
      Except.ok ⟨"buf", "ubuffer", "", none⟩ :=
  ⟨missing_input_type_fails_loading.1 [] [inputDictW] inputDictW
      (Or.inl (List.mem_singleton.mpr rfl)) rfl,
   missing_input_type_fails_loading.2 "buf" "ubuffer"⟩

end SlangTestGen

